import Mathlib

/-!
Shallow embedding of `scripts/make_sql_for_granafa.py`, a small ETL pipeline
that normalizes CSV and spreadsheet transaction records and writes them into
a SQLite store.  Data frames are modelled as Lean lists (row-wise for the CSV
normalizer and the store writer, column-wise for the spreadsheet normalizer,
matching how each function manipulates them); pandas floats are modelled by
`PVal` (a rational together with the IEEE special values); the SQLite
database is modelled as a map from table names to optional row lists.
-/

set_option autoImplicit false

namespace Kakeibo

/-! ### Substring containment, modelling Python `needle in haystack` on str -/

/-- Python `needle in hay` for strings, on the character lists. -/
def hasSubstr : List Char → List Char → Bool
  | needle, [] => needle.isEmpty
  | needle, hay@(_ :: t) => needle.isPrefixOf hay || hasSubstr needle t

/-- The travel category token `出張` that the CSV rule rewrites to. -/
def travelToken : String := "出張"

/-! ### CSV normalizer (`preprocess_csv_data`, lines 35-56)

A CSV row carries the `計算対象` include flag (an optional integer: `none`
models a missing/NaN cell, for which pandas `== 1` and `== 0` are both
false), the `大項目` major category and the remaining consumed columns. -/

structure CRow where
  id : Int
  calcFlag : Option Int
  major : String
  minor : String
  descr : String
  amount : Int
  memo : String
deriving DecidableEq, Repr

/-- Line 51: rewrite `大項目` to `出張` when it contains that substring. -/
def rewriteZeroMajor (r : CRow) : CRow :=
  { r with major := if hasSubstr travelToken.data r.major.data then travelToken else r.major }

/-- Lines 46-56: keep the `計算対象 == 1` rows, rewrite the major category of
the `計算対象 == 0` rows by the travel rule, and concatenate, included first. -/
def preprocess_csv_data (df : List CRow) : List CRow :=
  let df_filtered := df.filter (fun r => r.calcFlag == some 1)
  let df_zero := (df.filter (fun r => r.calcFlag == some 0)).map rewriteZeroMajor
  df_filtered ++ df_zero

/-! ### Pandas float values

`PVal` models the values of a pandas numeric column: either a finite number
(modelled as a rational, ignoring rounding) or one of the IEEE special
values.  Pandas arithmetic on such columns never raises: division by zero
yields `±inf` or `nan`. -/

inductive PVal where
  | num (q : ℚ)
  | posInf
  | negInf
  | nan
deriving DecidableEq, Repr

namespace PVal

def add : PVal → PVal → PVal
  | num a, num b => num (a + b)
  | num _, posInf => posInf
  | num _, negInf => negInf
  | posInf, num _ => posInf
  | negInf, num _ => negInf
  | posInf, posInf => posInf
  | negInf, negInf => negInf
  | posInf, negInf => nan
  | negInf, posInf => nan
  | _, _ => nan

def sub : PVal → PVal → PVal
  | num a, num b => num (a - b)
  | num _, posInf => negInf
  | num _, negInf => posInf
  | posInf, num _ => posInf
  | negInf, num _ => negInf
  | posInf, negInf => posInf
  | negInf, posInf => negInf
  | posInf, posInf => nan
  | negInf, negInf => nan
  | _, _ => nan

def mul : PVal → PVal → PVal
  | num a, num b => num (a * b)
  | num a, posInf => if 0 < a then posInf else if a < 0 then negInf else nan
  | num a, negInf => if 0 < a then negInf else if a < 0 then posInf else nan
  | posInf, num b => if 0 < b then posInf else if b < 0 then negInf else nan
  | negInf, num b => if 0 < b then negInf else if b < 0 then posInf else nan
  | posInf, posInf => posInf
  | negInf, negInf => posInf
  | posInf, negInf => negInf
  | negInf, posInf => negInf
  | _, _ => nan

def div : PVal → PVal → PVal
  | num a, num b =>
      if b = 0 then (if 0 < a then posInf else if a < 0 then negInf else nan)
      else num (a / b)
  | num _, posInf => num 0
  | num _, negInf => num 0
  | posInf, num b => if 0 ≤ b then posInf else negInf
  | negInf, num b => if 0 ≤ b then negInf else posInf
  | _, _ => nan

end PVal

/-! ### Spreadsheet normalizer (`preprocess_excel_data`, lines 59-87)

Pandas data frames are mutated column-wise (`df["col"] = ...`), so the
spreadsheet frame is modelled column-wise.  `includeCol` is `none` when the
`計算対象` column is absent and `amountCol` is `none` when `金額（円）` has
not been written yet.  The embedded function returns the pair
(mutated argument frame, projected 8-column result), the first component
being the caller's view of `df` after the call. -/

structure EFrame where
  idCol : List Int
  dateCol : List String
  descrCol : List String
  u1AmtCol : List PVal
  u2BurdenCol : List PVal
  u2AmtCol : List PVal
  u1RatioCol : List PVal
  u2RatioCol : List PVal
  majorCol : List String
  minorCol : List String
  memoCol : List String
  includeCol : Option (List Int)
  amountCol : Option (List PVal)
deriving DecidableEq, Repr

/-- A row of the common 8-column projection (line 85). -/
structure ERow where
  id : Int
  date : String
  descr : String
  amount : PVal
  major : String
  minor : String
  memo : String
  calcFlag : Int
deriving DecidableEq, Repr

/-- Lines 71-72: `df["計算対象"] = 1` when the column is absent, broadcasting
the scalar over the frame's rows; otherwise the existing column. -/
def includeColAfter (df : EFrame) : List Int :=
  match df.includeCol with
  | some c => c
  | none => List.replicate df.idCol.length 1

/-- Lines 73-81: the settled `金額（円）` column.  For the U1 sheet it is
`U1金額 (円) - U2 負担`; for the U2 sheet it is
`U2金額 (円) * U1 比率 / (U1 比率 + U2 比率)`, elementwise. -/
def amountColAfter (df : EFrame) (u1 : Bool) : List PVal :=
  if u1 then List.zipWith PVal.sub df.u1AmtCol df.u2BurdenCol
  else
    List.zipWith PVal.div (List.zipWith PVal.mul df.u2AmtCol df.u1RatioCol)
      (List.zipWith PVal.add df.u1RatioCol df.u2RatioCol)

/-- Line 85: project row `i` of the mutated frame to the 8 common columns. -/
def projectRow (df : EFrame) (i : Nat) : ERow :=
  { id := df.idCol.getD i 0
    date := df.dateCol.getD i ""
    descr := df.descrCol.getD i ""
    amount := (df.amountCol.getD []).getD i PVal.nan
    major := df.majorCol.getD i ""
    minor := df.minorCol.getD i ""
    memo := df.memoCol.getD i ""
    calcFlag := (df.includeCol.getD []).getD i 1 }

/-- Lines 59-87: mutate the argument frame (synthesize `計算対象` if absent,
write the settled `金額（円）` column), then return the mutated frame paired
with the copied 8-column projection. -/
def preprocess_excel_data (df : EFrame) (u1 : Bool) : EFrame × List ERow :=
  let df2 : EFrame :=
    { df with includeCol := some (includeColAfter df), amountCol := some (amountColAfter df u1) }
  (df2, (List.range df.idCol.length).map (projectRow df2))

/-! ### Date canonicalizer (`convert_dates_to_string`, lines 90-104)

The function mutates its argument data frame in place and returns the very
same object, so it is modelled over an explicit heap of frames addressed by
references: it receives a reference, updates the heap at that reference and
returns the reference of the result.  A frame is a list of named columns;
the elementwise conversion `pd.to_datetime(.).dt.date` is abstracted by the
parameter `toDate` (its parsing behavior is not at issue here). -/

abbrev ColFrame := List (String × List String)

/-- Line 103 for one column name: overwrite every cell of each column with
that name by its converted value, leaving other columns unchanged. -/
def canonCol (toDate : String → String) (frame : ColFrame) (col : String) : ColFrame :=
  frame.map (fun p => if p.1 = col then (p.1, p.2.map toDate) else p)

/-- Lines 101-104: convert every named date column of the frame at `ref` in
place, then `return df` — the same reference that came in. -/
def convert_dates_to_string (toDate : String → String) (heap : List ColFrame) (ref : Nat)
    (dateCols : List String) : List ColFrame × Nat :=
  (heap.set ref (dateCols.foldl (canonCol toDate) (heap.getD ref [])), ref)

/-! ### Store writer (`insert_data_to_sqlite`, lines 107-149)

The SQLite database is a map from table names to optional row lists (`none`
when the table does not exist).  A stored row is an ID plus the rest of the
row, kept opaque. -/

structure DRow where
  id : Int
  rest : String
deriving DecidableEq, Repr

def Db : Type := String → Option (List DRow)

def emptyDb : Db := fun _ => none

/-- Overwrite one table of the database. -/
def updateDb (db : Db) (n : String) (v : List DRow) : Db :=
  fun m => if m = n then some v else db m

/-- Lines 121-136: `CREATE TABLE IF NOT EXISTS my_table (...)` — the fixed
table `my_table` afterwards exists, with its prior contents if it did. -/
def createMyTable (db : Db) : Db :=
  updateDb db "my_table" ((db "my_table").getD [])

/-- Lines 141-143: read the IDs present in the fixed table `my_table` and
keep only the batch rows whose ID is not among them. -/
def dedupAgainstMyTable (db : Db) (batch : List DRow) : List DRow :=
  let existing := ((db "my_table").getD []).map DRow.id
  batch.filter (fun r => !(existing.contains r.id))

/-- Lines 107-149 (success path): ensure `my_table` exists, then either
replace the contents of `table_name` wholesale by the batch, or append to
`table_name` the batch rows whose ID is not yet in `my_table`, skipping the
write when that subset is empty. -/
def insert_data_to_sqlite (db : Db) (tname : String) (batch : List DRow) (replace : Bool) : Db :=
  let db1 := createMyTable db
  if replace then
    updateDb db1 tname batch
  else
    let new_data := dedupAgainstMyTable db1 batch
    if new_data.isEmpty then db1
    else updateDb db1 tname (((db1 tname).getD []) ++ new_data)

/-! #### Exit paths of the store writer

The Python function acquires the connection with `sqlite3.connect`, runs the
statements sequentially and calls `conn.close()` on the last line, with no
`try`/`finally` or context manager.  `FaultModel` says which of the external
SQLite operations raises; `insert_data_run` threads the database and records
whether `conn.close()` was reached. -/

structure FaultModel where
  createFails : Bool
  readFails : Bool
  insertFails : Bool
  commitFails : Bool
deriving DecidableEq, Repr

structure RunResult where
  ok : Bool
  db : Db
  connClosed : Bool

/-- Lines 107-149 with explicit failure points: when a statement raises, the
exception propagates to the caller and the trailing `conn.close()` (line
149) is never executed. -/
def insert_data_run (f : FaultModel) (db : Db) (tname : String) (batch : List DRow)
    (replace : Bool) : RunResult :=
  if f.createFails then ⟨false, db, false⟩
  else
    let db1 := createMyTable db
    if replace then
      if f.insertFails then ⟨false, db1, false⟩
      else
        let db2 := updateDb db1 tname batch
        if f.commitFails then ⟨false, db2, false⟩ else ⟨true, db2, true⟩
    else
      if f.readFails then ⟨false, db1, false⟩
      else
        let new_data := dedupAgainstMyTable db1 batch
        if new_data.isEmpty then
          if f.commitFails then ⟨false, db1, false⟩ else ⟨true, db1, true⟩
        else
          if f.insertFails then ⟨false, db1, false⟩
          else
            let db2 := updateDb db1 tname (((db1 tname).getD []) ++ new_data)
            if f.commitFails then ⟨false, db2, false⟩ else ⟨true, db2, true⟩

/-! ### Sample rows used by the witnesses -/

def csvRowFood : CRow := ⟨1, some 1, "食費", "食料品", "lunch", 1000, ""⟩

def csvRowTravel : CRow := ⟨2, some 0, "旅費出張費", "", "train", 500, ""⟩

def csvRowBad : CRow := ⟨3, some 2, "食費", "", "misc", 100, ""⟩

/-! ### Theorems about the CSV normalizer -/

/-- The rewrite of line 51 touches only the major category. -/
theorem rewriteZeroMajor_calcFlag (r : CRow) : (rewriteZeroMajor r).calcFlag = r.calcFlag := rfl

/-- C4: `preprocess_csv_data` keeps every include-flag-1 row unchanged,
rewrites the major category of an include-flag-0 row to exactly `出張` when
it contains that substring and leaves other include-flag-0 rows unchanged,
and outputs the included partition first, then the rewritten excluded
partition, each in input order (the two partitions are order-preserving
sublists of the input). -/
theorem csv_partition_rewrite :
    (∀ df : List CRow, preprocess_csv_data df =
        df.filter (fun r => r.calcFlag == some 1)
          ++ (df.filter (fun r => r.calcFlag == some 0)).map rewriteZeroMajor)
    ∧ (∀ df : List CRow, (df.filter (fun r => r.calcFlag == some 1)).Sublist df
        ∧ (df.filter (fun r => r.calcFlag == some 0)).Sublist df)
    ∧ (∀ r : CRow, (hasSubstr travelToken.data r.major.data = true →
          (rewriteZeroMajor r).major = travelToken)
        ∧ (hasSubstr travelToken.data r.major.data = false → rewriteZeroMajor r = r))
    ∧ (∀ df : List CRow, ∀ r ∈ df, r.calcFlag = some 1 → r ∈ preprocess_csv_data df) := by
  refine ⟨fun df => rfl, fun df => ⟨List.filter_sublist df, List.filter_sublist df⟩, ?_, ?_⟩
  · intro r
    constructor
    · intro h
      simp [rewriteZeroMajor, h]
    · intro h
      simp [rewriteZeroMajor, h]
  · intro df r hr h1
    unfold preprocess_csv_data
    exact List.mem_append_left _ (List.mem_filter.mpr ⟨hr, by simp [h1]⟩)

/-- Witness for C4 at a concrete two-row table. -/
theorem csv_partition_rewrite_witness :
    csvRowFood ∈ preprocess_csv_data [csvRowFood, csvRowTravel] :=
  csv_partition_rewrite.2.2.2 [csvRowFood, csvRowTravel] csvRowFood (by decide) (by decide)

/-- C9: a row whose include flag is neither 1 nor 0 (e.g. missing/NaN or
out of range) is absent from the output of `preprocess_csv_data`; every
output row has flag 1 or 0, and the output has exactly as many rows as the
flag-1 and flag-0 rows of the input together. -/
theorem csv_other_flags_dropped :
    (∀ (df : List CRow) (r : CRow), r ∈ preprocess_csv_data df →
        r.calcFlag = some 1 ∨ r.calcFlag = some 0)
    ∧ (∀ (df : List CRow) (r : CRow), r.calcFlag ≠ some 1 → r.calcFlag ≠ some 0 →
        r ∉ preprocess_csv_data df)
    ∧ (∀ df : List CRow, (preprocess_csv_data df).length =
        (df.filter (fun r => r.calcFlag == some 1)).length
          + (df.filter (fun r => r.calcFlag == some 0)).length) := by
  have h1 : ∀ (df : List CRow) (r : CRow), r ∈ preprocess_csv_data df →
      r.calcFlag = some 1 ∨ r.calcFlag = some 0 := by
    intro df r hr
    unfold preprocess_csv_data at hr
    rcases List.mem_append.mp hr with h | h
    · exact Or.inl (by simpa using (List.mem_filter.mp h).2)
    · rcases List.mem_map.mp h with ⟨s, hs, hrs⟩
      refine Or.inr ?_
      have : s.calcFlag = some 0 := by simpa using (List.mem_filter.mp hs).2
      rw [← hrs, rewriteZeroMajor_calcFlag]
      exact this
  refine ⟨h1, ?_, ?_⟩
  · intro df r hne1 hne0 hmem
    rcases h1 df r hmem with h | h
    · exact hne1 h
    · exact hne0 h
  · intro df
    unfold preprocess_csv_data
    simp

/-- Witness for C9: the flag-2 row is dropped from a concrete table. -/
theorem csv_other_flags_dropped_witness :
    csvRowBad ∉ preprocess_csv_data [csvRowFood, csvRowBad] :=
  csv_other_flags_dropped.2.1 [csvRowFood, csvRowBad] csvRowBad (by decide) (by decide)

/-! ### Theorems about the store writer -/

def sampleRow : DRow := ⟨1, "r1"⟩

def staleRow : DRow := ⟨9, "stale"⟩

/-- A store whose target table already holds a stale row. -/
def staleDb : Db := updateDb emptyDb "financial_data" [staleRow]

/-- C7: replace mode leaves the target table holding exactly the incoming
batch; any row present before and not in the batch is gone afterwards. -/
theorem replace_mode_exact :
    ∀ (db : Db) (tname : String) (batch : List DRow),
      (insert_data_to_sqlite db tname batch true) tname = some batch
      ∧ ∀ r : DRow, r ∉ batch →
          r ∉ ((insert_data_to_sqlite db tname batch true) tname).getD [] := by
  intro db tname batch
  have h : (insert_data_to_sqlite db tname batch true) tname = some batch := by
    unfold insert_data_to_sqlite updateDb
    simp
  exact ⟨h, fun r hr => by rw [h]; simpa using hr⟩

/-- Witness for C7: a stale row not in the new batch disappears. -/
theorem replace_mode_exact_witness :
    (insert_data_to_sqlite staleDb "financial_data" [sampleRow] true) "financial_data"
        = some [sampleRow]
    ∧ staleRow ∉ ((insert_data_to_sqlite staleDb "financial_data" [sampleRow] true)
        "financial_data").getD [] :=
  ⟨(replace_mode_exact staleDb "financial_data" [sampleRow]).1,
   (replace_mode_exact staleDb "financial_data" [sampleRow]).2 staleRow (by decide)⟩

/-- C8: the append-mode duplicate check of `insert_data_to_sqlite` reads the
ID set from the fixed table `my_table` only — it depends on the store solely
through `my_table` — so a previous append-mode write to any other
`table_name` never changes the subset that a later run appends. -/
theorem append_dedup_reads_my_table :
    (∀ (db db2 : Db) (batch : List DRow), db "my_table" = db2 "my_table" →
        dedupAgainstMyTable db batch = dedupAgainstMyTable db2 batch)
    ∧ (∀ (db : Db) (tname : String) (batch batch2 : List DRow), tname ≠ "my_table" →
        dedupAgainstMyTable (insert_data_to_sqlite db tname batch false) batch2
          = dedupAgainstMyTable db batch2) := by
  constructor
  · intro db db2 batch h
    unfold dedupAgainstMyTable
    rw [h]
  · intro db tname batch batch2 h
    have hmt : (insert_data_to_sqlite db tname batch false) "my_table"
        = some ((db "my_table").getD []) := by
      unfold insert_data_to_sqlite
      simp only [Bool.false_eq_true, if_false]
      split
      · unfold createMyTable updateDb
        simp
      · unfold createMyTable updateDb
        simp [Ne.symm h]
    unfold dedupAgainstMyTable
    rw [hmt]
    simp [createMyTable, updateDb]

/-- Witness for C8 at a concrete store and batch. -/
theorem append_dedup_reads_my_table_witness :
    dedupAgainstMyTable (insert_data_to_sqlite emptyDb "financial_data" [sampleRow] false)
        [sampleRow]
      = dedupAgainstMyTable emptyDb [sampleRow] :=
  append_dedup_reads_my_table.2 emptyDb "financial_data" [sampleRow] [sampleRow] (by decide)

/-- C1 fails on the code: with the driver's `table_name = "financial_data"`,
running the append-mode write twice with the same one-row batch against an
initially empty store leaves TWO copies of the row in `financial_data`,
because the duplicate check reads IDs from the fixed table `my_table`, which
the write never populates. -/
theorem append_twice_duplicates_in_target :
    (insert_data_to_sqlite (insert_data_to_sqlite emptyDb "financial_data" [sampleRow] false)
        "financial_data" [sampleRow] false) "financial_data"
      = some [sampleRow, sampleRow] := by decide

/-- C3 fails on the code: when the insertion step raises, the run returns
control to the caller with the connection still open — `conn.close()` on
line 149 is never reached because there is no `try`/`finally`. -/
theorem conn_left_open_on_insert_failure :
    (insert_data_run ⟨false, false, true, false⟩ emptyDb "financial_data" [sampleRow] false).ok
        = false
    ∧ (insert_data_run ⟨false, false, true, false⟩ emptyDb "financial_data"
        [sampleRow] false).connClosed = false :=
  ⟨rfl, rfl⟩

/-- C3 amended: the connection is released exactly on the successful exit
path — `connClosed` holds if and only if the run completed without any
statement raising; on every failing exit path the connection is left open. -/
theorem conn_closed_iff_success :
    ∀ (f : FaultModel) (db : Db) (tname : String) (batch : List DRow) (rep : Bool),
      (insert_data_run f db tname batch rep).connClosed
        = (insert_data_run f db tname batch rep).ok := by
  intro f db tname batch rep
  unfold insert_data_run
  cases hc : f.createFails <;> cases hr : rep <;> cases hrd : f.readFails <;>
    cases hi : f.insertFails <;> cases hco : f.commitFails <;>
    cases hne : (dedupAgainstMyTable (createMyTable db) batch).isEmpty <;>
    simp [hc, hr, hrd, hi, hco, hne]

/-! ### Theorems about the spreadsheet normalizer -/

/-- A one-row U1 frame: raw amount 3000, secondary share 1000. -/
def exU1Frame : EFrame :=
  { idCol := [10], dateCol := ["2024-01-01"], descrCol := ["dinner"]
    u1AmtCol := [PVal.num 3000], u2BurdenCol := [PVal.num 1000]
    u2AmtCol := [PVal.num 0], u1RatioCol := [PVal.num 1], u2RatioCol := [PVal.num 2]
    majorCol := ["食費"], minorCol := [""], memoCol := [""]
    includeCol := none, amountCol := none }

/-- A one-row U2 frame: raw amount 900, primary ratio 1, secondary ratio 2. -/
def exU2Frame : EFrame := { exU1Frame with u2AmtCol := [PVal.num 900] }

/-- A degenerate one-row U2 frame whose two ratios sum to zero. -/
def exU2ZeroFrame : EFrame :=
  { exU1Frame with u2AmtCol := [PVal.num 900]
                   u1RatioCol := [PVal.num 0], u2RatioCol := [PVal.num 0] }

/-- The Amount column of the projected output is the settled amount column
written into the frame, read off positionally. -/
theorem amount_at (df : EFrame) (u1b : Bool) (i : Nat) (v : PVal)
    (hi : i < df.idCol.length) (hv : (amountColAfter df u1b)[i]? = some v) :
    ((preprocess_excel_data df u1b).2.map ERow.amount)[i]? = some v := by
  obtain ⟨hlen, hval⟩ := List.getElem?_eq_some.mp hv
  unfold preprocess_excel_data
  simp only [List.map_map, List.getElem?_map, List.getElem?_range hi, Option.map_some]
  show some (ERow.amount (projectRow _ i)) = some v
  unfold projectRow
  simp only
  rw [Option.getD_some, List.getD_eq_getElem _ _ hlen, hval]

/-- C5: for a primary-contributor (U1) sheet, the settled Amount of each
projected row is exactly `U1金額 (円)` minus `U2 負担`; concretely, raw
amount 3000 with secondary share 1000 yields Amount 2000. -/
theorem u1_amount_exact :
    (∀ (df : EFrame) (i : Nat) (a b : ℚ), i < df.idCol.length →
        df.u1AmtCol[i]? = some (PVal.num a) → df.u2BurdenCol[i]? = some (PVal.num b) →
        ((preprocess_excel_data df true).2.map ERow.amount)[i]? = some (PVal.num (a - b)))
    ∧ (preprocess_excel_data exU1Frame true).2.map ERow.amount = [PVal.num 2000] := by
  constructor
  · intro df i a b hi ha hb
    refine amount_at df true i _ hi ?_
    show (List.zipWith PVal.sub df.u1AmtCol df.u2BurdenCol)[i]? = some (PVal.num (a - b))
    exact List.getElem?_zipWith_eq_some.mpr ⟨PVal.num a, PVal.num b, ha, hb, rfl⟩
  · norm_num [preprocess_excel_data, projectRow, amountColAfter, includeColAfter,
      exU1Frame, PVal.sub, List.range_succ, List.range_zero, Function.comp]

/-- Witness for C5 at the concrete 3000/1000 row. -/
theorem u1_amount_exact_witness :
    ((preprocess_excel_data exU1Frame true).2.map ERow.amount)[0]? = some (PVal.num 2000) := by
  have h := u1_amount_exact.1 exU1Frame 0 3000 1000 (by decide) rfl rfl
  rw [h]
  norm_num

/-- C6: for a secondary-contributor (U2) sheet row whose ratios sum to a
nonzero value, the settled Amount is exactly
`U2金額 (円) * U1 比率 / (U1 比率 + U2 比率)`; concretely, raw amount 900
with ratios 1 and 2 yields Amount 300. -/
theorem u2_amount_apportioned :
    (∀ (df : EFrame) (i : Nat) (a r1 r2 : ℚ), i < df.idCol.length →
        df.u2AmtCol[i]? = some (PVal.num a) → df.u1RatioCol[i]? = some (PVal.num r1) →
        df.u2RatioCol[i]? = some (PVal.num r2) → r1 + r2 ≠ 0 →
        ((preprocess_excel_data df false).2.map ERow.amount)[i]?
          = some (PVal.num (a * r1 / (r1 + r2))))
    ∧ (preprocess_excel_data exU2Frame false).2.map ERow.amount = [PVal.num 300] := by
  constructor
  · intro df i a r1 r2 hi ha hr1 hr2 hne
    refine amount_at df false i _ hi ?_
    show (List.zipWith PVal.div (List.zipWith PVal.mul df.u2AmtCol df.u1RatioCol)
        (List.zipWith PVal.add df.u1RatioCol df.u2RatioCol))[i]?
        = some (PVal.num (a * r1 / (r1 + r2)))
    have hm : (List.zipWith PVal.mul df.u2AmtCol df.u1RatioCol)[i]?
        = some (PVal.num (a * r1)) :=
      List.getElem?_zipWith_eq_some.mpr ⟨PVal.num a, PVal.num r1, ha, hr1, rfl⟩
    have hs : (List.zipWith PVal.add df.u1RatioCol df.u2RatioCol)[i]?
        = some (PVal.num (r1 + r2)) :=
      List.getElem?_zipWith_eq_some.mpr ⟨PVal.num r1, PVal.num r2, hr1, hr2, rfl⟩
    refine List.getElem?_zipWith_eq_some.mpr
      ⟨PVal.num (a * r1), PVal.num (r1 + r2), hm, hs, ?_⟩
    simp [PVal.div, hne]
  · norm_num [preprocess_excel_data, projectRow, amountColAfter, includeColAfter,
      exU2Frame, exU1Frame, PVal.mul, PVal.add, PVal.div, List.range_succ, List.range_zero, Function.comp]

/-- Witness for C6 at the concrete 900 / (1:2) row. -/
theorem u2_amount_apportioned_witness :
    ((preprocess_excel_data exU2Frame false).2.map ERow.amount)[0]? = some (PVal.num 300) := by
  have h := u2_amount_apportioned.1 exU2Frame 0 900 1 2 (by decide) rfl rfl rfl (by norm_num)
  rw [h]
  norm_num

/-- C2 fails on the code: on a secondary-contributor row whose two ratios
sum to zero (here 900 with ratios 0 and 0), `preprocess_excel_data` raises
no error at all — it runs to completion and silently writes the NaN amount
`900 * 0 / 0` into the output. -/
theorem u2_zero_ratio_silent_nan :
    (preprocess_excel_data exU2ZeroFrame false).2.map ERow.amount = [PVal.nan] := by
  norm_num [preprocess_excel_data, projectRow, amountColAfter, includeColAfter,
    exU2ZeroFrame, exU1Frame, PVal.mul, PVal.add, PVal.div, List.range_succ, List.range_zero, Function.comp]

/-- C2 amended: when `U1 比率 + U2 比率` is zero the normalizer does not
fail; it silently produces a non-finite Amount — `+inf` when
`U2金額 (円) * U1 比率` is positive, `-inf` when negative, NaN when zero. -/
theorem u2_zero_ratio_nonfinite :
    ∀ (df : EFrame) (i : Nat) (a r1 r2 : ℚ), i < df.idCol.length →
      df.u2AmtCol[i]? = some (PVal.num a) → df.u1RatioCol[i]? = some (PVal.num r1) →
      df.u2RatioCol[i]? = some (PVal.num r2) → r1 + r2 = 0 →
      ((preprocess_excel_data df false).2.map ERow.amount)[i]?
        = some (if 0 < a * r1 then PVal.posInf
                else if a * r1 < 0 then PVal.negInf else PVal.nan) := by
  intro df i a r1 r2 hi ha hr1 hr2 hz
  refine amount_at df false i _ hi ?_
  show (List.zipWith PVal.div (List.zipWith PVal.mul df.u2AmtCol df.u1RatioCol)
      (List.zipWith PVal.add df.u1RatioCol df.u2RatioCol))[i]? = some _
  have hm : (List.zipWith PVal.mul df.u2AmtCol df.u1RatioCol)[i]?
      = some (PVal.num (a * r1)) :=
    List.getElem?_zipWith_eq_some.mpr ⟨PVal.num a, PVal.num r1, ha, hr1, rfl⟩
  have hs : (List.zipWith PVal.add df.u1RatioCol df.u2RatioCol)[i]?
      = some (PVal.num (r1 + r2)) :=
    List.getElem?_zipWith_eq_some.mpr ⟨PVal.num r1, PVal.num r2, hr1, hr2, rfl⟩
  refine List.getElem?_zipWith_eq_some.mpr
    ⟨PVal.num (a * r1), PVal.num (r1 + r2), hm, hs, ?_⟩
  simp [PVal.div, hz]

/-- Witness for the amended C2 at the concrete 900 / (0:0) row. -/
theorem u2_zero_ratio_nonfinite_witness :
    ((preprocess_excel_data exU2ZeroFrame false).2.map ERow.amount)[0]? = some PVal.nan := by
  have h := u2_zero_ratio_nonfinite exU2ZeroFrame 0 900 0 0 (by decide) rfl rfl rfl (by norm_num)
  rw [h]
  norm_num

/-- C10: the spreadsheet normalizer mutates the caller's frame in place —
after the call the argument frame itself carries the (possibly synthesized)
`計算対象` column and the freshly written `金額（円）` column, every other
column untouched, while the 8-column result is a separate projection; and
the date canonicalizer rewrites each named date column of the frame behind
the caller's reference and returns that very same reference. -/
theorem mutation_in_place :
    (∀ (df : EFrame) (u1b : Bool),
        (preprocess_excel_data df u1b).1
          = { df with includeCol := some (includeColAfter df)
                      amountCol := some (amountColAfter df u1b) })
    ∧ (∀ (toDate : String → String) (heap : List ColFrame) (ref : Nat) (cols : List String),
        (convert_dates_to_string toDate heap ref cols).2 = ref
        ∧ (convert_dates_to_string toDate heap ref cols).1
            = heap.set ref (cols.foldl (canonCol toDate) (heap.getD ref []))) :=
  ⟨fun _ _ => rfl, fun _ _ _ _ => ⟨rfl, rfl⟩⟩

end Kakeibo
